import Mathlib

/-!
Shallow embedding of the Group-8 weather dashboard core
(`src/weather_client.py`, `src/models.py`, `src/weather_app_group8/app.py`):
the HTTP client's status-code → error classification, the domain mapper,
the TTL cache, and the exception taxonomy.

JSON values are modelled by the inductive `JVal`. The mapper never performs
arithmetic on numeric payload fields (it only passes them through), and every
numeric literal appearing in the code and its tests is integer-valued
(`0`, `0.0`, `28.0`, `65`, ...), so JSON numbers are modelled as `Int`.
Python `dict.get(k, default)` on a dict returns the stored value or the
default; calling `.get` on a non-dict value raises `AttributeError`, which we
model in the `Except String` monad.
-/

inductive JVal where
  | null : JVal
  | bool (b : Bool) : JVal
  | num (n : Int) : JVal
  | str (s : String) : JVal
  | arr (elems : List JVal) : JVal
  | obj (fields : List (String × JVal)) : JVal

/-- Python `d.get(k, default)` where `d` is known to be a dict, modelled as an
association list with first-match lookup. -/
def dictGet (d : List (String × JVal)) (k : String) (dflt : JVal) : JVal :=
  match d.lookup k with
  | some v => v
  | none => dflt

/-- Python `v.get(k, default)` on an arbitrary value: only dicts have a `.get`
method, so a non-dict receiver raises `AttributeError`. -/
def pyGet (v : JVal) (k : String) (dflt : JVal) : Except String JVal :=
  match v with
  | JVal.obj fields => Except.ok (dictGet fields k dflt)
  | _ => Except.error "AttributeError"

/-- Python iteration (`for x in v`): lists yield their elements, dicts yield
their keys, strings yield their characters; other values raise `TypeError`. -/
def pyIter (v : JVal) : Except String (List JVal) :=
  match v with
  | JVal.arr elems => Except.ok elems
  | JVal.obj fields => Except.ok (fields.map (fun p => JVal.str p.1))
  | JVal.str s => Except.ok (s.data.map (fun c => JVal.str (String.singleton c)))
  | _ => Except.error "TypeError"

/-- `models.Location`: the dataclass stores whatever `dict.get` returned, so
fields are raw `JVal`s. -/
structure Location where
  name : JVal
  country : JVal
  region : JVal
  local_time : JVal

/-- `Location.from_api_response` (src/models.py lines 19-27). -/
def Location.fromApiResponse (location_data : JVal) : Except String Location := do
  let name ← pyGet location_data "name" (JVal.str "Unknown")
  let country ← pyGet location_data "country" (JVal.str "")
  let region ← pyGet location_data "region" (JVal.str "")
  let local_time ← pyGet location_data "localtime" (JVal.str "")
  pure { name := name, country := country, region := region, local_time := local_time }

/-- `models.CurrentWeather` dataclass. -/
structure CurrentWeather where
  temperature_c : JVal
  temperature_f : JVal
  condition : JVal
  icon : JVal
  humidity : JVal
  wind_kph : JVal
  wind_dir : JVal
  feels_like_c : JVal
  uv : JVal
  visibility_km : JVal
  last_updated : JVal

/-- `CurrentWeather.from_api_response` (src/models.py lines 45-60): each field
uses `.get` with a type-appropriate default; `condition` and `icon` go through
the nested `current_data.get('condition', {}).get(...)`, whose inner `.get`
raises when the stored `condition` value is not a dict. -/
def CurrentWeather.fromApiResponse (current_data : JVal) : Except String CurrentWeather := do
  let temperature_c ← pyGet current_data "temp_c" (JVal.num 0)
  let temperature_f ← pyGet current_data "temp_f" (JVal.num 0)
  let cond ← pyGet current_data "condition" (JVal.obj [])
  let condition ← pyGet cond "text" (JVal.str "Unknown")
  let icon ← pyGet cond "icon" (JVal.str "")
  let humidity ← pyGet current_data "humidity" (JVal.num 0)
  let wind_kph ← pyGet current_data "wind_kph" (JVal.num 0)
  let wind_dir ← pyGet current_data "wind_dir" (JVal.str "")
  let feels_like_c ← pyGet current_data "feelslike_c" (JVal.num 0)
  let uv ← pyGet current_data "uv" (JVal.num 0)
  let visibility_km ← pyGet current_data "vis_km" (JVal.num 0)
  let last_updated ← pyGet current_data "last_updated" (JVal.str "")
  pure { temperature_c := temperature_c, temperature_f := temperature_f,
         condition := condition, icon := icon, humidity := humidity,
         wind_kph := wind_kph, wind_dir := wind_dir, feels_like_c := feels_like_c,
         uv := uv, visibility_km := visibility_km, last_updated := last_updated }

/-- `models.ForecastDay` dataclass. -/
structure ForecastDay where
  date : JVal
  max_temp_c : JVal
  min_temp_c : JVal
  max_temp_f : JVal
  min_temp_f : JVal
  condition : JVal
  icon : JVal
  chance_of_rain : JVal
  avg_humidity : JVal

/-- `ForecastDay.from_api_response` (src/models.py lines 91-105): first
`day = day_data.get('day', {})`, then the constructor arguments in order;
`day.get(...)` raises when the stored `day` value is not a dict, and the
nested condition access raises when `day['condition']` is not a dict. -/
def ForecastDay.fromApiResponse (day_data : JVal) : Except String ForecastDay := do
  let day ← pyGet day_data "day" (JVal.obj [])
  let date ← pyGet day_data "date" (JVal.str "")
  let max_temp_c ← pyGet day "maxtemp_c" (JVal.num 0)
  let min_temp_c ← pyGet day "mintemp_c" (JVal.num 0)
  let max_temp_f ← pyGet day "maxtemp_f" (JVal.num 0)
  let min_temp_f ← pyGet day "mintemp_f" (JVal.num 0)
  let cond ← pyGet day "condition" (JVal.obj [])
  let condition ← pyGet cond "text" (JVal.str "Unknown")
  let icon ← pyGet cond "icon" (JVal.str "")
  let chance_of_rain ← pyGet day "daily_chance_of_rain" (JVal.num 0)
  let avg_humidity ← pyGet day "avghumidity" (JVal.num 0)
  pure { date := date, max_temp_c := max_temp_c, min_temp_c := min_temp_c,
         max_temp_f := max_temp_f, min_temp_f := min_temp_f,
         condition := condition, icon := icon, chance_of_rain := chance_of_rain,
         avg_humidity := avg_humidity }

/-- `models.WeatherData` dataclass. -/
structure WeatherData where
  location : Location
  current : CurrentWeather
  last_updated : JVal

/-- `WeatherData.from_api_response` (src/models.py lines 129-136). -/
def WeatherData.fromApiResponse (api_data : JVal) : Except String WeatherData := do
  let locv ← pyGet api_data "location" (JVal.obj [])
  let location ← Location.fromApiResponse locv
  let curv ← pyGet api_data "current" (JVal.obj [])
  let current ← CurrentWeather.fromApiResponse curv
  let curv2 ← pyGet api_data "current" (JVal.obj [])
  let last_updated ← pyGet curv2 "last_updated" (JVal.str "")
  pure { location := location, current := current, last_updated := last_updated }

/-- `models.WeatherForecast` dataclass. -/
structure WeatherForecast where
  location : Location
  forecast : List ForecastDay

/-- `WeatherForecast.from_api_response` (src/models.py lines 158-168): loops
over `api_data.get('forecast', {}).get('forecastday', [])`. -/
def WeatherForecast.fromApiResponse (api_data : JVal) : Except String WeatherForecast := do
  let fv ← pyGet api_data "forecast" (JVal.obj [])
  let fdv ← pyGet fv "forecastday" (JVal.arr [])
  let items ← pyIter fdv
  let forecast ← items.mapM ForecastDay.fromApiResponse
  let locv ← pyGet api_data "location" (JVal.obj [])
  let location ← Location.fromApiResponse locv
  pure { location := location, forecast := forecast }

/-- Error raised by `WeatherDataProcessor`: the Python code re-raises every
mapping failure as `ValueError` (the `DataProcessingError` kind of the spec's
taxonomy). -/
inductive ProcError where
  | valueError (msg : String) : ProcError

/-- `WeatherDataProcessor.process_current_weather` (src/models.py lines
188-202): `except Exception as e: raise ValueError(f"Failed to process
weather data: {e}")`. -/
def WeatherDataProcessor.process_current_weather (raw_api_data : JVal) :
    Except ProcError WeatherData :=
  match WeatherData.fromApiResponse raw_api_data with
  | Except.ok w => Except.ok w
  | Except.error e => Except.error (ProcError.valueError ("Failed to process weather data: " ++ e))

/-- `WeatherDataProcessor.process_forecast` (src/models.py lines 204-218). -/
def WeatherDataProcessor.process_forecast (raw_api_data : JVal) :
    Except ProcError WeatherForecast :=
  match WeatherForecast.fromApiResponse raw_api_data with
  | Except.ok w => Except.ok w
  | Except.error e => Except.error (ProcError.valueError ("Failed to process forecast data: " ++ e))

/-- `true` exactly when the computation raised. -/
def isErr {ε α : Type} : Except ε α → Bool
  | Except.error _ => true
  | Except.ok _ => false

/-!
## Weather client (`src/weather_client.py`)

The exception class hierarchy and the client's classification of provider
responses. Transport outcomes (timeout, connection error, other request
exceptions) and the HTTP response are inputs to the model, since they come
from the network.
-/

/-- The exception classes defined in src/weather_client.py lines 15-32,
plus Python's built-in `Exception` root. -/
inductive ExcClass where
  | exception : ExcClass
  | weatherAPIError : ExcClass
  | networkError : ExcClass
  | apiKeyError : ExcClass
  | cityNotFoundError : ExcClass
deriving DecidableEq

/-- Immediate superclass, from the `class C(B):` declarations. -/
def ExcClass.base : ExcClass → Option ExcClass
  | ExcClass.exception => none
  | ExcClass.weatherAPIError => some ExcClass.exception
  | ExcClass.networkError => some ExcClass.weatherAPIError
  | ExcClass.apiKeyError => some ExcClass.weatherAPIError
  | ExcClass.cityNotFoundError => some ExcClass.weatherAPIError

/-- Python `issubclass`: reflexive-transitive closure of `base`. The hierarchy
has depth at most 3, so three steps of `base` suffice. -/
def ExcClass.isSubclassOf (c d : ExcClass) : Bool :=
  c = d ||
  (match c.base with
   | some b => b = d ||
       (match b.base with
        | some b2 => b2 = d ||
            (match b2.base with
             | some b3 => b3 = d
             | none => false)
        | none => false)
   | none => false)

/-- A raised client error: the exception class together with its message. -/
inductive ApiError where
  | cityNotFound (msg : String) : ApiError
  | apiKey (msg : String) : ApiError
  | weatherAPI (msg : String) : ApiError
  | network (msg : String) : ApiError

/-- The exception class of a raised error. -/
def ApiError.excClass : ApiError → ExcClass
  | ApiError.cityNotFound _ => ExcClass.cityNotFoundError
  | ApiError.apiKey _ => ExcClass.apiKeyError
  | ApiError.weatherAPI _ => ExcClass.weatherAPIError
  | ApiError.network _ => ExcClass.networkError

/-- A single-quote character as a string (the client's messages quote the
city name). -/
def sglq : String := String.singleton (Char.ofNat 39)

/-- A `requests.Session` as configured by the client: the code assigns a
`timeout` attribute to it (src/weather_client.py line 59). -/
structure Session where
  timeout : Option Int

/-- The observable shape of an outbound HTTP GET: URL, query parameters, and
the timeout actually applied to the call. -/
structure HttpRequest where
  url : String
  params : List (String × String)
  timeout : Option Int

/-- `requests.Session.get`, modelled from the requests library's documented
behavior: the timeout applied to a call is exactly the per-call `timeout`
argument (defaulting to no timeout when not passed); a `timeout` attribute
assigned on the `Session` object is not an attribute the library consults. -/
def Session.get (_s : Session) (url : String) (params : List (String × String))
    (timeout : Option Int) : HttpRequest :=
  { url := url, params := params, timeout := timeout }

/-- An HTTP response from the provider: status code and the result of
`response.json()` (`none` models a body that fails to parse, where
`response.json()` raises `ValueError`). -/
structure HttpResponse where
  status_code : Int
  json : Option JVal

/-- Outcome of the transport layer for one call, feeding the client's
`try/except` blocks (src/weather_client.py lines 104-109 and 161-166). -/
inductive TransportResult where
  | success (r : HttpResponse) : TransportResult
  | timeout : TransportResult
  | connectionError : TransportResult
  | requestException (msg : String) : TransportResult

/-- The provider's `error.message` field from the response body, per the wire
contract consumed by the client (spec section 6: error bodies carry an
`error.message` string). The client code itself never reads this field. -/
def providerErrorMessage (r : HttpResponse) : String :=
  match r.json with
  | some (JVal.obj fs) =>
      match fs.lookup "error" with
      | some (JVal.obj es) =>
          match es.lookup "message" with
          | some (JVal.str m) => m
          | _ => ""
      | _ => ""
  | _ => ""

/-- Substring containment on strings (Python's `phrase in message`). -/
def strStartsWith : List Char → List Char → Bool
  | _, [] => true
  | [], _ :: _ => false
  | a :: as, b :: bs => a == b && strStartsWith as bs

/-- `true` when `pat` occurs as a contiguous substring of `s`. -/
def strContainsSub (s pat : String) : Bool :=
  go s.data pat.data
where
  go : List Char → List Char → Bool
    | [], pat => pat.isEmpty
    | s@(_ :: rest), pat => strStartsWith s pat || go rest pat

/-- The `WeatherClient` object after construction: stored credentials and the
session (src/weather_client.py lines 46-59). -/
structure WeatherClient where
  api_key : String
  base_url : String
  session : Session

/-- Python truthiness of an optional string (`os.getenv` result): `None` and
the empty string are falsy. -/
def pyTruthy : Option String → Bool
  | none => false
  | some s => !s.isEmpty

/-- `WeatherClient.__init__` (src/weather_client.py lines 46-59): reads the
two environment variables, raises `APIKeyError` when either is missing or
empty, then creates a session and assigns `session.timeout = 10`. -/
def WeatherClient.init (env_api_key env_base_url : Option String) :
    Except ApiError WeatherClient :=
  if !pyTruthy env_api_key then
    Except.error (ApiError.apiKey "Weather API key not found in environment variables")
  else if !pyTruthy env_base_url then
    Except.error (ApiError.apiKey "Weather API base URL not found in environment variables")
  else
    Except.ok { api_key := env_api_key.getD "", base_url := env_base_url.getD "",
                session := { timeout := some 10 } }

/-- The status-code → error mapping shared by `get_current_weather` and
`get_forecast` (src/weather_client.py lines 84-102 and 141-159): 400 →
`CityNotFoundError`, 401/403 → `APIKeyError`, other non-200 →
`WeatherAPIError`, 200 → parse JSON (parse failure → `WeatherAPIError`). -/
def classifyResponse (city : String) (r : HttpResponse) : Except ApiError JVal :=
  if r.status_code = 400 then
    Except.error (ApiError.cityNotFound ("City " ++ sglq ++ city ++ sglq ++ " not found"))
  else if r.status_code = 401 then
    Except.error (ApiError.apiKey "Invalid API key")
  else if r.status_code = 403 then
    Except.error (ApiError.apiKey "API key limit exceeded")
  else if r.status_code ≠ 200 then
    Except.error (ApiError.weatherAPI ("API returned status code: " ++ toString r.status_code))
  else
    match r.json with
    | some data => Except.ok data
    | none => Except.error (ApiError.weatherAPI "Invalid JSON response")

/-- The transport `except` clauses wrapped around the status handling:
timeouts, connection errors and other request exceptions become
`NetworkError`; classified errors raised inside the `try` are not request
exceptions and propagate unchanged. -/
def handleTransport (city : String) (t : TransportResult) : Except ApiError JVal :=
  match t with
  | TransportResult.success r => classifyResponse city r
  | TransportResult.timeout =>
      Except.error (ApiError.network "Request timed out. Please check your internet connection.")
  | TransportResult.connectionError =>
      Except.error (ApiError.network
        "Unable to connect to weather service. Please check your internet connection.")
  | TransportResult.requestException m =>
      Except.error (ApiError.network ("Network error occurred: " ++ m))

/-- `WeatherClient.get_current_weather` (src/weather_client.py lines 61-109):
the outbound request it issues and the result of classifying the transport
outcome. -/
def WeatherClient.get_current_weather (c : WeatherClient) (city : String)
    (t : TransportResult) : HttpRequest × Except ApiError JVal :=
  (Session.get c.session (c.base_url ++ "/current.json")
     [("key", c.api_key), ("q", city), ("aqi", "no")] none,
   handleTransport city t)

/-- `WeatherClient.get_forecast` (src/weather_client.py lines 111-166): the
`days` parameter is replaced by 5 when outside `1 <= days <= 10`, then the
request is issued and the transport outcome classified exactly as for
`get_current_weather`. -/
def WeatherClient.get_forecast (c : WeatherClient) (city : String) (days : Int)
    (t : TransportResult) : HttpRequest × Except ApiError JVal :=
  let days := if 1 ≤ days ∧ days ≤ 10 then days else 5
  (Session.get c.session (c.base_url ++ "/forecast.json")
     [("key", c.api_key), ("q", city), ("days", toString days),
      ("aqi", "no"), ("alerts", "no")] none,
   handleTransport city t)

/-!
## TTL cache (`src/weather_app_group8/app.py`)

Time is modelled in seconds as `Int` (`datetime.now()` values map to instants,
differences to signed durations). The cache dict maps keys to
`(data, timestamp)` pairs; dict assignment overwrites, modelled by
prepending after filtering out the old binding.
-/

/-- `CACHE_DURATION = timedelta(minutes=10)`, in seconds. -/
def CACHE_DURATION : Int := 600

/-- A cache value is one of the JSON-shaped result dicts the app stores. -/
abbrev Cache := List (String × (JVal × Int))

/-- `is_cache_valid` (app.py lines 33-35): `datetime.now() - timestamp <
CACHE_DURATION`, with `now` passed explicitly. -/
def is_cache_valid (now timestamp : Int) : Bool :=
  now - timestamp < CACHE_DURATION

/-- `get_cached_data` (app.py lines 38-44): return the stored data when the
key is present and still valid, `None` otherwise; the cache itself is not
modified. -/
def get_cached_data (cache : Cache) (cache_key : String) (now : Int) : Option JVal :=
  match cache.lookup cache_key with
  | some (data, timestamp) =>
      if is_cache_valid now timestamp then some data else none
  | none => none

/-- `set_cache_data` (app.py lines 47-49): `cache[cache_key] = (data,
datetime.now())`, an unconditional overwrite. -/
def set_cache_data (cache : Cache) (cache_key : String) (data : JVal) (now : Int) : Cache :=
  (cache_key, (data, now)) :: cache.filter (fun p => p.1 ≠ cache_key)

/-- Python `str.lower()` restricted to its character-wise behavior (identical
to character-wise lowercasing on the ASCII city names involved). -/
def pyLower (s : String) : String := ⟨s.data.map Char.toLower⟩

/-- The cache key built by the current-weather route (app.py line 79):
`f"current_{city.lower()}"`. -/
def current_cache_key (city : String) : String := "current_" ++ pyLower city

/-- The cache key built by the forecast route (app.py line 181):
`f"forecast_{city.lower()}"`. -/
def forecast_cache_key (city : String) : String := "forecast_" ++ pyLower city

/-!
## Shared concrete values and helper lemmas
-/

/-- A client as constructed in the repository's tests (`test_weather.py`
`setUp`): key `test_api_key`, base URL `http://test.api.com/v1`, and the
session attribute the constructor assigns. -/
def testClient : WeatherClient :=
  { api_key := "test_api_key", base_url := "http://test.api.com/v1",
    session := { timeout := some 10 } }

/-- The scenario payload from the spec (section 8): location plus a current
block carrying only `temp_c`, `condition.text` and `humidity`. -/
def lagosPayload : JVal :=
  JVal.obj
    [("location", JVal.obj
        [("name", JVal.str "Lagos"), ("country", JVal.str "Nigeria"),
         ("region", JVal.str "Lagos")]),
     ("current", JVal.obj
        [("temp_c", JVal.num 28), ("condition", JVal.obj [("text", JVal.str "Sunny")]),
         ("humidity", JVal.num 65)])]

/-- The record the mapper produces when every field is absent: all defaults. -/
def emptyWeatherData : WeatherData :=
  { location := { name := JVal.str "Unknown", country := JVal.str "", region := JVal.str "",
                  local_time := JVal.str "" },
    current := { temperature_c := JVal.num 0, temperature_f := JVal.num 0,
                 condition := JVal.str "Unknown", icon := JVal.str "",
                 humidity := JVal.num 0, wind_kph := JVal.num 0, wind_dir := JVal.str "",
                 feels_like_c := JVal.num 0, uv := JVal.num 0, visibility_km := JVal.num 0,
                 last_updated := JVal.str "" },
    last_updated := JVal.str "" }

/-- A 400 response whose provider `error.message` is an API-key complaint,
not a location-not-found phrase (weatherapi.com uses a body of this shape for
disabled keys even on status 400). -/
def resp400ApiKeyMsg : HttpResponse :=
  { status_code := 400,
    json := some (JVal.obj [("error", JVal.obj
      [("code", JVal.num 2008), ("message", JVal.str "API key has been disabled.")])]) }

theorem Except.okBind {ε α β : Type} (a : α) (f : α → Except ε β) :
    (Except.ok a : Except ε α) >>= f = f a := rfl

/-- `true` when an optional JSON value is absent or is a dict. -/
def objOrAbsentB : Option JVal → Bool
  | none => true
  | some (JVal.obj _) => true
  | some _ => false

/-- The `condition` entry of a current-weather dict, when present, is a dict. -/
def condOkB (d : List (String × JVal)) : Bool := objOrAbsentB (List.lookup "condition" d)

/-- The `day` entry of a forecast-day dict, when present, is a dict whose own
`condition` entry, when present, is a dict. -/
def dayOkB (e : List (String × JVal)) : Bool :=
  match List.lookup "day" e with
  | none => true
  | some (JVal.obj fs) => objOrAbsentB (List.lookup "condition" fs)
  | some _ => false

theorem currentWeatherChar (d : List (String × JVal)) (hc : condOkB d = true) :
    ∃ fs, dictGet d "condition" (JVal.obj []) = JVal.obj fs ∧
      CurrentWeather.fromApiResponse (JVal.obj d) = Except.ok
        { temperature_c := dictGet d "temp_c" (JVal.num 0),
          temperature_f := dictGet d "temp_f" (JVal.num 0),
          condition := dictGet fs "text" (JVal.str "Unknown"),
          icon := dictGet fs "icon" (JVal.str ""),
          humidity := dictGet d "humidity" (JVal.num 0),
          wind_kph := dictGet d "wind_kph" (JVal.num 0),
          wind_dir := dictGet d "wind_dir" (JVal.str ""),
          feels_like_c := dictGet d "feelslike_c" (JVal.num 0),
          uv := dictGet d "uv" (JVal.num 0),
          visibility_km := dictGet d "vis_km" (JVal.num 0),
          last_updated := dictGet d "last_updated" (JVal.str "") } := by
  unfold condOkB objOrAbsentB at hc
  cases h : List.lookup "condition" d with
  | none =>
    refine ⟨[], by simp [dictGet, h], ?_⟩
    simp only [CurrentWeather.fromApiResponse, pyGet, dictGet, h]
    rfl
  | some v =>
    rw [h] at hc
    cases v with
    | obj fs =>
      refine ⟨fs, by simp [dictGet, h], ?_⟩
      simp only [CurrentWeather.fromApiResponse, pyGet, dictGet, h]
      rfl
    | null => simp at hc
    | bool b => simp at hc
    | num n => simp at hc
    | str s => simp at hc
    | arr xs => simp at hc

theorem forecastDayTotal (e : List (String × JVal)) (hd : dayOkB e = true) :
    isErr (ForecastDay.fromApiResponse (JVal.obj e)) = false := by
  unfold dayOkB at hd
  cases h : List.lookup "day" e with
  | none =>
    simp only [ForecastDay.fromApiResponse, pyGet, dictGet, h, Except.okBind]
    rfl
  | some v =>
    rw [h] at hd
    cases v with
    | obj fs =>
      simp only [objOrAbsentB] at hd
      cases h2 : List.lookup "condition" fs with
      | none =>
        simp only [ForecastDay.fromApiResponse, pyGet, dictGet, h, h2, Except.okBind]
        rfl
      | some w =>
        rw [h2] at hd
        cases w with
        | obj gs =>
          simp only [ForecastDay.fromApiResponse, pyGet, dictGet, h, h2, Except.okBind]
          rfl
        | null => simp at hd
        | bool b => simp at hd
        | num n => simp at hd
        | str s => simp at hd
        | arr xs => simp at hd
    | null => simp at hd
    | bool b => simp at hd
    | num n => simp at hd
    | str s => simp at hd
    | arr xs => simp at hd

/-- Every error produced by the response/transport classification belongs to
a class caught by an `except WeatherAPIError` handler. -/
def errClassCaught : Except ApiError JVal → Bool
  | Except.error e => ExcClass.isSubclassOf e.excClass ExcClass.weatherAPIError
  | Except.ok _ => true

theorem handleTransportCaught (city : String) (t : TransportResult) :
    errClassCaught (handleTransport city t) = true := by
  cases t with
  | success r =>
    show errClassCaught (classifyResponse city r) = true
    unfold classifyResponse
    split_ifs <;> try rfl
    cases r.json <;> rfl
  | timeout => rfl
  | connectionError => rfl
  | requestException m => rfl

theorem classify_400 (city : String) (r : HttpResponse) (h : r.status_code = 400) :
    classifyResponse city r =
      Except.error (ApiError.cityNotFound ("City " ++ sglq ++ city ++ sglq ++ " not found")) := by
  unfold classifyResponse
  rw [h]
  rfl

theorem set_then_lookup (cache : Cache) (k : String) (v : JVal) (t0 : Int) :
    List.lookup k (set_cache_data cache k v t0) = some (v, t0) := by
  simp [set_cache_data, List.lookup]

theorem set_then_get_hit (cache : Cache) (k : String) (v : JVal) (t0 t : Int)
    (h : t - t0 < CACHE_DURATION) :
    get_cached_data (set_cache_data cache k v t0) k t = some v := by
  simp [get_cached_data, set_cache_data, List.lookup, is_cache_valid, h]

theorem set_then_get_expired (cache : Cache) (k : String) (v : JVal) (t0 t : Int)
    (h : CACHE_DURATION ≤ t - t0) :
    get_cached_data (set_cache_data cache k v t0) k t = none := by
  simp [get_cached_data, set_cache_data, List.lookup, is_cache_valid]
  omega

/-!
## Claim theorems
-/

/-- C1 (counterexample): a 400 response whose provider `error.message` does
not contain the phrase `no matching location` nevertheless raises
`CityNotFoundError`, not the generic API error: the client never inspects the
message. -/
theorem status400_message_ignored_counterexample :
    strContainsSub (providerErrorMessage resp400ApiKeyMsg) "no matching location" = false ∧
    (WeatherClient.get_current_weather testClient "Lagos"
        (TransportResult.success resp400ApiKeyMsg)).2 =
      Except.error (ApiError.cityNotFound ("City " ++ sglq ++ "Lagos" ++ sglq ++ " not found")) :=
  ⟨rfl, rfl⟩

/-- C1 (amended): for every city and every 400 response, `get_current_weather`
and `get_forecast` raise `CityNotFoundError` unconditionally; the provider's
error message field plays no role in the classification. -/
theorem status400_always_city_not_found (c : WeatherClient) (city : String)
    (days : Int) (r : HttpResponse) (h : r.status_code = 400) :
    (WeatherClient.get_current_weather c city (TransportResult.success r)).2 =
      Except.error (ApiError.cityNotFound ("City " ++ sglq ++ city ++ sglq ++ " not found")) ∧
    (WeatherClient.get_forecast c city days (TransportResult.success r)).2 =
      Except.error (ApiError.cityNotFound ("City " ++ sglq ++ city ++ sglq ++ " not found")) :=
  ⟨classify_400 city r h, classify_400 city r h⟩

/-- C1 (witness): the amended theorem applied to the concrete 400 response. -/
theorem status400_always_city_not_found_witness :
    (WeatherClient.get_current_weather testClient "Paris"
        (TransportResult.success resp400ApiKeyMsg)).2 =
      Except.error (ApiError.cityNotFound ("City " ++ sglq ++ "Paris" ++ sglq ++ " not found")) ∧
    (WeatherClient.get_forecast testClient "Paris" 5
        (TransportResult.success resp400ApiKeyMsg)).2 =
      Except.error (ApiError.cityNotFound ("City " ++ sglq ++ "Paris" ++ sglq ++ " not found")) :=
  status400_always_city_not_found testClient "Paris" 5 resp400ApiKeyMsg rfl

/-- C2 (counterexample): with the API key absent, construction fails with the
`APIKeyError` class of the taxonomy — the same credential kind as 401/403
responses — not a distinct `ConfigurationError` kind (the code defines no such
class). -/
theorem init_config_error_kind_counterexample :
    WeatherClient.init none (some "http://test.api.com/v1") =
      Except.error (ApiError.apiKey "Weather API key not found in environment variables") ∧
    (ApiError.apiKey "Weather API key not found in environment variables").excClass =
      ExcClass.apiKeyError :=
  ⟨rfl, rfl⟩

/-- C2 (amended): if the API key or the base endpoint is absent (or empty),
construction fails with `APIKeyError`; construction succeeds exactly when both
are present and non-empty. -/
theorem init_requires_key_and_base_url (k u : Option String) :
    ((pyTruthy k = false ∨ pyTruthy u = false) →
      ∃ m, WeatherClient.init k u = Except.error (ApiError.apiKey m)) ∧
    (pyTruthy k = true → pyTruthy u = true →
      ∃ c, WeatherClient.init k u = Except.ok c) := by
  constructor
  · intro h
    unfold WeatherClient.init
    rcases h with h | h
    · rw [h]; exact ⟨_, rfl⟩
    · rw [h]
      cases hk : pyTruthy k
      · exact ⟨_, rfl⟩
      · exact ⟨_, rfl⟩
  · intro h1 h2
    unfold WeatherClient.init
    rw [h1, h2]
    exact ⟨_, rfl⟩

/-- C2 (witness): the amended theorem at a missing key and at a full
configuration. -/
theorem init_requires_key_and_base_url_witness :
    (∃ m, WeatherClient.init none (some "http://test.api.com/v1") =
      Except.error (ApiError.apiKey m)) ∧
    (∃ c, WeatherClient.init (some "test_api_key") (some "http://test.api.com/v1") =
      Except.ok c) :=
  ⟨(init_requires_key_and_base_url none (some "http://test.api.com/v1")).1 (Or.inl rfl),
   (init_requires_key_and_base_url (some "test_api_key") (some "http://test.api.com/v1")).2
     rfl rfl⟩

/-- C3 (counterexample): a dict payload whose `condition` field is present
with a non-dict value makes `CurrentWeather.from_api_response` raise
(`AttributeError` from the nested `.get`), so the mapper does not resolve
wrong-typed fields to defaults and does not succeed on every dict input. -/
theorem mapper_wrong_typed_field_counterexample :
    CurrentWeather.fromApiResponse (JVal.obj [("condition", JVal.num 5)]) =
      Except.error "AttributeError" := rfl

/-- C3 (amended): a missing field resolves to its type-appropriate default and
a present field is stored unchanged (not type-checked or coerced);
`CurrentWeather.from_api_response` and `ForecastDay.from_api_response` never
raise on dict inputs whose nested `condition` (and `day`) entries, when
present, are dicts. -/
theorem mapper_default_on_absence (d e : List (String × JVal))
    (hc : condOkB d = true) (hd : dayOkB e = true) :
    isErr (CurrentWeather.fromApiResponse (JVal.obj d)) = false ∧
    isErr (ForecastDay.fromApiResponse (JVal.obj e)) = false ∧
    (List.lookup "temp_c" d = none →
      ∃ r, CurrentWeather.fromApiResponse (JVal.obj d) = Except.ok r ∧
        r.temperature_c = JVal.num 0) ∧
    (∀ v, List.lookup "temp_c" d = some v →
      ∃ r, CurrentWeather.fromApiResponse (JVal.obj d) = Except.ok r ∧
        r.temperature_c = v) := by
  obtain ⟨fs, -, heq⟩ := currentWeatherChar d hc
  refine ⟨by rw [heq]; rfl, forecastDayTotal e hd, ?_, ?_⟩
  · intro hm
    exact ⟨_, heq, by simp [dictGet, hm]⟩
  · intro v hv
    exact ⟨_, heq, by simp [dictGet, hv]⟩

/-- C3 (witness): the amended theorem at the empty dict, plus its default
conclusion, and at a dict whose `temp_c` is a wrong-typed (string) value that
is passed through unchanged. -/
theorem mapper_default_on_absence_witness :
    (isErr (CurrentWeather.fromApiResponse (JVal.obj [])) = false ∧
     isErr (ForecastDay.fromApiResponse (JVal.obj [])) = false ∧
     (∃ r, CurrentWeather.fromApiResponse (JVal.obj []) = Except.ok r ∧
       r.temperature_c = JVal.num 0)) ∧
    (∃ r, CurrentWeather.fromApiResponse (JVal.obj [("temp_c", JVal.str "hot")]) =
       Except.ok r ∧ r.temperature_c = JVal.str "hot") := by
  obtain ⟨a, b, c, -⟩ := mapper_default_on_absence [] [] rfl rfl
  obtain ⟨-, -, -, d⟩ := mapper_default_on_absence [("temp_c", JVal.str "hot")] [] rfl rfl
  exact ⟨⟨a, b, c rfl⟩, d (JVal.str "hot") rfl⟩

/-- C4: `get_forecast` with `days` outside [1,10] behaves identically to
`days = 5` (same request, same classified result); with `days` inside [1,10]
the supplied value is sent unchanged as the `days` request parameter. -/
theorem forecast_days_clamped (c : WeatherClient) (city : String) (days : Int)
    (t : TransportResult) :
    ((days < 1 ∨ 10 < days) →
      WeatherClient.get_forecast c city days t = WeatherClient.get_forecast c city 5 t) ∧
    (1 ≤ days → days ≤ 10 →
      List.lookup "days" (WeatherClient.get_forecast c city days t).1.params =
        some (toString days)) := by
  constructor
  · intro h
    have hn : ¬(1 ≤ days ∧ days ≤ 10) := by omega
    simp only [WeatherClient.get_forecast, hn, if_false]
    norm_num
  · intro h1 h2
    have hp : 1 ≤ days ∧ days ≤ 10 := ⟨h1, h2⟩
    simp only [WeatherClient.get_forecast, hp, if_true]
    rfl

/-- C4 (witness): `days = 0` is replaced by the default 5; `days = 7` is sent
unchanged. -/
theorem forecast_days_clamped_witness :
    WeatherClient.get_forecast testClient "Lagos" 0 TransportResult.timeout =
      WeatherClient.get_forecast testClient "Lagos" 5 TransportResult.timeout ∧
    List.lookup "days"
        (WeatherClient.get_forecast testClient "Lagos" 7 TransportResult.timeout).1.params =
      some (toString (7 : Int)) :=
  ⟨(forecast_days_clamped testClient "Lagos" 0 TransportResult.timeout).1
     (Or.inl (by decide)),
   (forecast_days_clamped testClient "Lagos" 7 TransportResult.timeout).2
     (by decide) (by decide)⟩

/-- C5: after `set_cache_data k v` at time `t0`, `get_cached_data k` at any
time `t` with `t - t0 < CACHE_DURATION` returns exactly `v`; with
`t - t0 ≥ CACHE_DURATION` it returns `None`; and the entry itself stays
resident in the cache (expiry only makes lookups ignore it — `get_cached_data`
never mutates the cache, which is a pure lookup in this model exactly as the
Python function never writes to the dict). -/
theorem cache_ttl_set_then_get (cache : Cache) (k : String) (v : JVal) (t0 t : Int) :
    (t - t0 < CACHE_DURATION →
      get_cached_data (set_cache_data cache k v t0) k t = some v) ∧
    (CACHE_DURATION ≤ t - t0 →
      get_cached_data (set_cache_data cache k v t0) k t = none) ∧
    List.lookup k (set_cache_data cache k v t0) = some (v, t0) :=
  ⟨set_then_get_hit cache k v t0 t, set_then_get_expired cache k v t0 t,
   set_then_lookup cache k v t0⟩

/-- C5 (witness): a hit at 599 seconds, a miss at exactly the 600-second TTL,
and the expired entry still resident. -/
theorem cache_ttl_set_then_get_witness :
    get_cached_data (set_cache_data [] "current_lagos" (JVal.str "w") 0)
      "current_lagos" 599 = some (JVal.str "w") ∧
    get_cached_data (set_cache_data [] "current_lagos" (JVal.str "w") 0)
      "current_lagos" 600 = none ∧
    List.lookup "current_lagos" (set_cache_data [] "current_lagos" (JVal.str "w") 0) =
      some (JVal.str "w", 0) :=
  ⟨(cache_ttl_set_then_get [] "current_lagos" (JVal.str "w") 0 599).1 (by decide),
   (cache_ttl_set_then_get [] "current_lagos" (JVal.str "w") 0 600).2.1 (by decide),
   (cache_ttl_set_then_get [] "current_lagos" (JVal.str "w") 0 0).2.2⟩

/-- C6: two city strings that agree after character-wise lowercasing produce
the same current and forecast cache keys, and a value stored under one city's
key is found when looking up the other's. -/
theorem cache_key_case_insensitive (c1 c2 : String)
    (h : c1.data.map Char.toLower = c2.data.map Char.toLower)
    (cache : Cache) (v : JVal) (t0 t : Int) (hvalid : t - t0 < CACHE_DURATION) :
    current_cache_key c1 = current_cache_key c2 ∧
    forecast_cache_key c1 = forecast_cache_key c2 ∧
    get_cached_data (set_cache_data cache (current_cache_key c1) v t0)
      (current_cache_key c2) t = some v := by
  have hl : pyLower c1 = pyLower c2 := congrArg String.mk h
  have hk : current_cache_key c1 = current_cache_key c2 := by
    unfold current_cache_key; rw [hl]
  have hf : forecast_cache_key c1 = forecast_cache_key c2 := by
    unfold forecast_cache_key; rw [hl]
  refine ⟨hk, hf, ?_⟩
  rw [← hk]
  exact set_then_get_hit cache (current_cache_key c1) v t0 t hvalid

/-- C6 (witness): `"Lagos"` and `"lagos"` share both cache keys and resolve to
the same entry. -/
theorem cache_key_case_insensitive_witness :
    current_cache_key "Lagos" = current_cache_key "lagos" ∧
    forecast_cache_key "Lagos" = forecast_cache_key "lagos" ∧
    get_cached_data
      (set_cache_data [] (current_cache_key "Lagos") (JVal.str "w") 0)
      (current_cache_key "lagos") 0 = some (JVal.str "w") :=
  cache_key_case_insensitive "Lagos" "lagos" (by decide) [] (JVal.str "w") 0 0 (by decide)

/-- C7: a payload missing both the `location` and `current` blocks maps to the
all-defaults record (zero numerics, `Unknown` condition) without raising; the
concrete spec scenario payload maps to `name = Lagos`,
`temperature_c = 28.0`, `condition = Sunny`, and the absent `temp_f` defaults
to `temperature_f = 0.0`. -/
theorem mapper_totality_scenario (d : List (String × JVal))
    (h1 : List.lookup "location" d = none) (h2 : List.lookup "current" d = none) :
    WeatherData.fromApiResponse (JVal.obj d) = Except.ok emptyWeatherData ∧
    (∃ w, WeatherData.fromApiResponse lagosPayload = Except.ok w ∧
      w.location.name = JVal.str "Lagos" ∧
      w.current.temperature_c = JVal.num 28 ∧
      w.current.condition = JVal.str "Sunny" ∧
      w.current.temperature_f = JVal.num 0) := by
  constructor
  · simp only [WeatherData.fromApiResponse, Location.fromApiResponse,
      CurrentWeather.fromApiResponse, pyGet, dictGet, h1, h2]
    rfl
  · exact ⟨_, rfl, rfl, rfl, rfl, rfl⟩

/-- C7 (witness): the theorem at the empty payload. -/
theorem mapper_totality_scenario_witness :
    WeatherData.fromApiResponse (JVal.obj []) = Except.ok emptyWeatherData ∧
    (∃ w, WeatherData.fromApiResponse lagosPayload = Except.ok w ∧
      w.location.name = JVal.str "Lagos" ∧
      w.current.temperature_c = JVal.num 28 ∧
      w.current.condition = JVal.str "Sunny" ∧
      w.current.temperature_f = JVal.num 0) :=
  mapper_totality_scenario [] rfl rfl

/-- C8: every mapping failure inside `process_current_weather` and
`process_forecast` is re-signaled as the single `ValueError` kind (the spec's
`DataProcessingError`), with its message wrapping the original cause. -/
theorem processor_wraps_mapping_failures (raw raw2 : JVal)
    (h : isErr (WeatherData.fromApiResponse raw) = true)
    (h2 : isErr (WeatherForecast.fromApiResponse raw2) = true) :
    (∃ e, WeatherData.fromApiResponse raw = Except.error e ∧
      WeatherDataProcessor.process_current_weather raw =
        Except.error (ProcError.valueError ("Failed to process weather data: " ++ e))) ∧
    (∃ e, WeatherForecast.fromApiResponse raw2 = Except.error e ∧
      WeatherDataProcessor.process_forecast raw2 =
        Except.error (ProcError.valueError ("Failed to process forecast data: " ++ e))) := by
  constructor
  · cases heq : WeatherData.fromApiResponse raw with
    | ok w => rw [heq] at h; simp [isErr] at h
    | error e =>
      exact ⟨e, rfl, by simp [WeatherDataProcessor.process_current_weather, heq]⟩
  · cases heq : WeatherForecast.fromApiResponse raw2 with
    | ok w => rw [heq] at h2; simp [isErr] at h2
    | error e =>
      exact ⟨e, rfl, by simp [WeatherDataProcessor.process_forecast, heq]⟩

/-- C8 (witness): raw payloads that are not mappings at all (a number, a bare
list) are wrapped into the single error kind. -/
theorem processor_wraps_mapping_failures_witness :
    (∃ e, WeatherData.fromApiResponse (JVal.num 3) = Except.error e ∧
      WeatherDataProcessor.process_current_weather (JVal.num 3) =
        Except.error (ProcError.valueError ("Failed to process weather data: " ++ e))) ∧
    (∃ e, WeatherForecast.fromApiResponse (JVal.arr []) = Except.error e ∧
      WeatherDataProcessor.process_forecast (JVal.arr []) =
        Except.error (ProcError.valueError ("Failed to process forecast data: " ++ e))) :=
  processor_wraps_mapping_failures (JVal.num 3) (JVal.arr []) rfl rfl

/-- C9 (code bug): the constructor assigns `session.timeout = 10`, but the
requests library only honors a per-call `timeout` argument and neither
`get_current_weather` nor `get_forecast` passes one, so every outbound request
is issued with no timeout — contradicting the code's own `10 second timeout`
comment and the spec. -/
theorem request_timeout_not_applied :
    WeatherClient.init (some "test_api_key") (some "http://test.api.com/v1") =
      Except.ok testClient ∧
    testClient.session.timeout = some 10 ∧
    (WeatherClient.get_current_weather testClient "Lagos"
        TransportResult.timeout).1.timeout = none ∧
    (WeatherClient.get_forecast testClient "Lagos" 5
        TransportResult.timeout).1.timeout = none :=
  ⟨rfl, rfl, rfl, rfl⟩

/-- C10: `NetworkError`, `APIKeyError` and `CityNotFoundError` are subclasses
of `WeatherAPIError`, and every classified error either client operation can
raise — for any transport outcome — belongs to a class caught by a single
`except WeatherAPIError` handler. -/
theorem error_taxonomy_single_handler (c : WeatherClient) (city : String)
    (days : Int) (t : TransportResult) :
    (ExcClass.isSubclassOf ExcClass.networkError ExcClass.weatherAPIError = true ∧
     ExcClass.isSubclassOf ExcClass.apiKeyError ExcClass.weatherAPIError = true ∧
     ExcClass.isSubclassOf ExcClass.cityNotFoundError ExcClass.weatherAPIError = true) ∧
    errClassCaught (WeatherClient.get_current_weather c city t).2 = true ∧
    errClassCaught (WeatherClient.get_forecast c city days t).2 = true :=
  ⟨⟨rfl, rfl, rfl⟩, handleTransportCaught city t, handleTransportCaught city t⟩
